import Mathlib

/-!
Verification of the data-sourcing and artifact-filtering core of the
`relx` command-line tool (`src/relx/providers.py`, `src/relx/artifacts.py`,
`src/relx/users.py`).

Python strings are embedded as `List Char`; Python lists as Lean lists.
The external `osc` process is modelled by passing its observed result
(exit code, stdout, stderr) as an explicit argument, and XML documents
already parsed into the shape the code reads from them.
-/

namespace Relx

/-- The characters Python `str.strip()` removes: ASCII whitespace
(space, tab, newline, carriage return, vertical tab, form feed).
Python strips all Unicode whitespace; the source only ever meets ASCII. -/
def isPySpace (c : Char) : Bool :=
  c = ' ' || c = '\t' || c = '\n' || c = '\r' || c = '\x0b' || c = '\x0c'

/-- Python `str.strip()`: drop leading and trailing whitespace. -/
def pyStrip (s : List Char) : List Char :=
  ((s.dropWhile isPySpace).reverse.dropWhile isPySpace).reverse

/-- Python `str.splitlines()` restricted to `'\n'` separators.
`"".splitlines() = []` in Python, while a nonempty string splits into its
newline-separated pieces.  In the source this is only ever applied to a
stripped string, which has no leading or trailing newline, so splitting on
`'\n'` agrees with Python there. -/
def splitlines (s : List Char) : List (List Char) :=
  if s.isEmpty then [] else s.splitOn '\n'

/-- Python `line.startswith(tuple(ps))`: some element of `ps` is a prefix
of `line`.  An empty tuple matches nothing. -/
def startswithAny (line : List Char) (ps : List (List Char)) : Bool :=
  ps.any fun p => p.isPrefixOf line

/-- Python `line.endswith(tuple(ps))`: some element of `ps` is a suffix
of `line`.  An empty tuple matches nothing. -/
def endswithAny (line : List Char) (ps : List (List Char)) : Bool :=
  ps.any fun p => p.isSuffixOf line

/-- `OscProvider.list_packages` (providers.py lines 18-26), given the stdout
of the external command: if stdout is empty (Python falsy) return `[]`,
otherwise strip the whole stdout, split into lines, and strip each line. -/
def list_packages (stdout : List Char) : List (List Char) :=
  if stdout.isEmpty then []
  else (splitlines (pyStrip stdout)).map pyStrip

/-- The loop body condition of `OscProvider.list_artifacts`
(providers.py lines 48-51) as a predicate on a stripped line: keep the line
iff it does not start with any invalid prefix, does not start with
`repo_name ++ "/"`, and does not end with any invalid extension. -/
def artifactKeep (repo_name : List Char) (invalid_start invalid_extensions : List (List Char))
    (line : List Char) : Bool :=
  !startswithAny line invalid_start
    && !(repo_name ++ ['/']).isPrefixOf line
    && !endswithAny line invalid_extensions

/-- The filtering loop of `OscProvider.list_artifacts` (providers.py lines
45-53): for each raw line, strip it; append it to the result iff it does
not start with an invalid prefix, does not start with `repo_name ++ "/"`
(outer `if`), and does not end with an invalid extension (inner `if`). -/
def filterArtifacts (repo_name : List Char) (invalid_start invalid_extensions : List (List Char)) :
    List (List Char) → List (List Char)
  | [] => []
  | l :: ls =>
    let line := pyStrip l
    if !startswithAny line invalid_start && !(repo_name ++ ['/']).isPrefixOf line then
      if !endswithAny line invalid_extensions then
        line :: filterArtifacts repo_name invalid_start invalid_extensions ls
      else
        filterArtifacts repo_name invalid_start invalid_extensions ls
    else
      filterArtifacts repo_name invalid_start invalid_extensions ls

/-- `OscProvider.list_artifacts` (providers.py lines 28-53), given the stdout
of the external command: empty stdout yields `[]`; otherwise the stdout is
stripped, split into lines, and the lines run through the filtering loop. -/
def list_artifacts (stdout repo_name : List Char)
    (invalid_start invalid_extensions : List (List Char)) : List (List Char) :=
  if stdout.isEmpty then []
  else filterArtifacts repo_name invalid_start invalid_extensions (splitlines (pyStrip stdout))

/-- The filtering loop is the `List.filter` of `artifactKeep` over the
stripped lines. -/
theorem filterArtifacts_eq_filter (repo_name : List Char)
    (invalid_start invalid_extensions : List (List Char)) (lines : List (List Char)) :
    filterArtifacts repo_name invalid_start invalid_extensions lines
      = (lines.map pyStrip).filter (artifactKeep repo_name invalid_start invalid_extensions) := by
  induction lines with
  | nil => rfl
  | cons l ls ih =>
    simp only [filterArtifacts, artifactKeep, List.map_cons, List.filter_cons]
    by_cases h1 : (!startswithAny (pyStrip l) invalid_start
        && !(repo_name ++ ['/']).isPrefixOf (pyStrip l)) = true
    · rw [if_pos h1]
      by_cases h2 : (!endswithAny (pyStrip l) invalid_extensions) = true
      · rw [if_pos h2]
        simp [artifactKeep, h1, h2, ih]
      · rw [if_neg h2]
        rw [Bool.not_eq_true] at h2
        simp [artifactKeep, h1, h2, ih]
    · rw [if_neg h1]
      rw [Bool.not_eq_true] at h1
      simp [artifactKeep, h1, ih]

/-- `pyStrip s` is `rdropWhile` after `dropWhile`. -/
theorem pyStrip_eq (s : List Char) :
    pyStrip s = List.rdropWhile isPySpace (s.dropWhile isPySpace) := rfl

/-- `pyStrip` is idempotent. -/
theorem pyStrip_idem (s : List Char) : pyStrip (pyStrip s) = pyStrip s := by
  rw [pyStrip_eq, pyStrip_eq]
  have hdy : (s.dropWhile isPySpace).dropWhile isPySpace = s.dropWhile isPySpace :=
    List.dropWhile_idempotent isPySpace s
  have hX : (List.rdropWhile isPySpace (s.dropWhile isPySpace)).dropWhile isPySpace
      = List.rdropWhile isPySpace (s.dropWhile isPySpace) := by
    obtain ⟨t, ht⟩ := List.rdropWhile_prefix isPySpace (s.dropWhile isPySpace)
    rcases hXe : List.rdropWhile isPySpace (s.dropWhile isPySpace) with _ | ⟨a, xs⟩
    · simp
    · rw [hXe] at ht
      have hpa : isPySpace a = false := by
        by_contra hcon
        rw [Bool.not_eq_false] at hcon
        rw [← ht, List.cons_append, List.dropWhile_cons_of_pos hcon] at hdy
        have hlen := congrArg List.length hdy
        have hle := ((xs ++ t).dropWhile_suffix isPySpace).sublist.length_le
        simp only [List.length_cons] at hlen
        omega
      exact List.dropWhile_cons_of_neg (by rw [hpa]; simp)
  rw [hX]
  exact List.rdropWhile_idempotent isPySpace (s.dropWhile isPySpace)

/-! ### User search (`OscProvider.get_users`, providers.py lines 86-127) -/

/-- The three mutually exclusive search query forms built by `get_users`:
the query text is matched against login, email, or real name. -/
inductive UserQuery
  | login (text : List Char)
  | email (text : List Char)
  | realname (text : List Char)
deriving DecidableEq, Repr

/-- A Python exception as it reaches the caller: the source raises
`RuntimeError(msg)` in every error path of providers.py and users.py. -/
inductive PyError
  | runtimeError (msg : List Char)
deriving DecidableEq, Repr

/-- The query-selection chain of `OscProvider.get_users` (providers.py
lines 98-109): `if is_login: ... elif is_email: ... elif is_realname: ...
else: raise RuntimeError("Invalid user search.")`.  Returns the query the
command is built from, or the raised error. -/
def get_users_query (search_text : List Char) (is_login is_email is_realname : Bool) :
    Except PyError UserQuery :=
  if is_login then .ok (.login search_text)
  else if is_email then .ok (.email search_text)
  else if is_realname then .ok (.realname search_text)
  else .error (.runtimeError "Invalid user search.".toList)

/-! ### Group lookup (`OscProvider.get_groups`, providers.py lines 55-84,
and the `get_groups` wrapper, users.py lines 14-28) -/

/-- A value stored in the info dictionary built by `get_groups`: either an
optional string (an element's text, or Python `None` when the element is
absent or has no text) or a list of optional strings (the `userid`
attributes, each possibly absent). -/
inductive PyVal
  | ostr (s : Option (List Char))
  | idlist (l : List (Option (List Char)))
deriving DecidableEq, Repr

/-- One `person` element of the group document, carrying the `userid`
attributes of its nested `person` children (providers.py lines 77-79). -/
structure PersonElem where
  persons : List (Option (List Char))
deriving DecidableEq, Repr

/-- The group XML document as read by `get_groups`: the result of
`tree.find("title")` and `tree.find("email")` (outer `Option`: element
present; inner `Option`: the element's text), the `userid` attributes of
the `maintainer` elements, and the `person` elements. -/
structure GroupTree where
  title : Option (Option (List Char))
  email : Option (Option (List Char))
  maintainers : List (Option (List Char))
  people : List PersonElem
deriving DecidableEq, Repr

/-- The dictionary-building part of `OscProvider.get_groups` (providers.py
lines 63-82), applied to the parsed XML document.  Keys are inserted in
source order: `Group`, `Email`, `Maintainers`, then `Users` only when
`is_fulllist` is true.  A Python dict preserving insertion order is
embedded as an association list. -/
def osc_get_groups (tree : GroupTree) (is_fulllist : Bool) :
    List (List Char × PyVal) :=
  let groupVal : PyVal := match tree.title with
    | some t => .ostr t
    | none => .ostr none
  let emailVal : PyVal := match tree.email with
    | some t => .ostr t
    | none => .ostr none
  let base := [("Group".toList, groupVal), ("Email".toList, emailVal),
    ("Maintainers".toList, PyVal.idlist tree.maintainers)]
  if is_fulllist then
    base ++ [("Users".toList, PyVal.idlist (tree.people.map PersonElem.persons).flatten)]
  else base

/-- The `get_groups` wrapper (users.py lines 14-28): fetch the info
dictionary and raise `RuntimeError(f"... not found.")` when it is empty
(Python `if not info:` on a dict tests emptiness). -/
def users_get_groups (group : List Char) (tree : GroupTree) (is_fulllist : Bool) :
    Except PyError (List (List Char × PyVal)) :=
  let info := osc_get_groups tree is_fulllist
  if info.isEmpty then .error (.runtimeError (group ++ " not found.".toList))
  else .ok info

/-! ### Command executor and error propagation -/

/-- The observed outcome of one external process: exit code and captured
stdout/stderr. -/
structure CommandResult where
  exit_code : Nat
  stdout : List Char
  stderr : List Char
deriving DecidableEq, Repr

/-- The structured failure of the command executor, carrying the command,
the exit code and the captured stderr. -/
structure ExternalCommandError where
  command : List (List Char)
  exit_code : Nat
  stderr : List Char
deriving DecidableEq, Repr

/-- Modelled from the spec: `run_command` lives in `relx.utils.tools`,
which is not among the source files; spec section 4.1 states the contract:
run the tokenized command, capture stdout and stderr, and on non-zero exit
fail with `ExternalCommandError{command, exit_code, stderr}` (in the
source this failure is `subprocess.CalledProcessError`).  The spawned
process itself is modelled by passing its observed `CommandResult`. -/
def run_command (command : List (List Char)) (result : CommandResult) :
    Except ExternalCommandError CommandResult :=
  if result.exit_code = 0 then .ok result
  else .error ⟨command, result.exit_code, result.stderr⟩

/-- `OscProvider.get_groups` (providers.py lines 55-84) including its
command execution and error path: on `CalledProcessError` it raises
`RuntimeError(f"Failed to get group '...': {stderr.strip()}")`; on success
it builds the info dictionary from the parsed document.  `parse` stands
for `etree.fromstring` on a well-formed response. -/
def osc_get_groups_run (group : List Char) (command : List (List Char))
    (result : CommandResult) (parse : List Char → GroupTree) (is_fulllist : Bool) :
    Except PyError (List (List Char × PyVal)) :=
  match run_command command result with
  | .error e =>
      .error (.runtimeError
        ("Failed to get group '".toList ++ group ++ "': ".toList ++ pyStrip e.stderr))
  | .ok out => .ok (osc_get_groups (parse out.stdout) is_fulllist)

/-- One user record parsed from a `person` element (providers.py lines
117-124); each field is the text of the corresponding child element. -/
structure UserRecord where
  user : Option (List Char)
  email : Option (List Char)
  name : Option (List Char)
  state : Option (List Char)
deriving DecidableEq, Repr

/-- `OscProvider.get_users` (providers.py lines 86-127) including its
command execution and error path: first the query-selection chain (whose
`RuntimeError` is not a `CalledProcessError` and so escapes the `except`
clause unchanged), then the command; on `CalledProcessError` it raises
`RuntimeError(f"Failed to get user '...': {stderr.strip()}")`; on success
the parsed records are returned.  `parse` stands for the XML record
extraction on a well-formed response. -/
def osc_get_users_run (search_text : List Char) (is_login is_email is_realname : Bool)
    (command : List (List Char)) (result : CommandResult)
    (parse : List Char → List UserRecord) : Except PyError (List UserRecord) :=
  match get_users_query search_text is_login is_email is_realname with
  | .error e => .error e
  | .ok _ =>
    match run_command command result with
    | .error e =>
        .error (.runtimeError
          ("Failed to get user '".toList ++ search_text ++ "': ".toList ++ pyStrip e.stderr))
    | .ok out => .ok (parse out.stdout)

/-! ### Regular expressions and the iteration driver
(`list_artifacs`, artifacts.py lines 14-49) -/

/-- A regular expression over characters, the fragment of Python `re`
patterns the repository configuration can supply: empty set, empty word,
a literal character, the wildcard `.`, concatenation, alternation and
Kleene star. -/
inductive Regex
  | emptyset
  | epsilon
  | char (c : Char)
  | dot
  | concat (r₁ r₂ : Regex)
  | alt (r₁ r₂ : Regex)
  | star (r : Regex)
deriving DecidableEq, Repr

/-- Whether a regular expression accepts the empty word. -/
def nullable : Regex → Bool
  | .emptyset => false
  | .epsilon => true
  | .char _ => false
  | .dot => false
  | .concat r₁ r₂ => nullable r₁ && nullable r₂
  | .alt r₁ r₂ => nullable r₁ || nullable r₂
  | .star _ => true

/-- Brzozowski derivative of a regular expression by a character. -/
def deriv (c : Char) : Regex → Regex
  | .emptyset => .emptyset
  | .epsilon => .emptyset
  | .char a => if a = c then .epsilon else .emptyset
  | .dot => .epsilon
  | .concat r₁ r₂ =>
      if nullable r₁ then .alt (.concat (deriv c r₁) r₂) (deriv c r₂)
      else .concat (deriv c r₁) r₂
  | .alt r₁ r₂ => .alt (deriv c r₁) (deriv c r₂)
  | .star r => .concat (deriv c r) (.star r)

/-- Whole-string matching by iterated derivatives (Python
`re.fullmatch`-style acceptance of the complete string). -/
def rmatch (r : Regex) : List Char → Bool
  | [] => nullable r
  | c :: s => rmatch (deriv c r) s

/-- Python `re.search(pattern, s)`: the pattern matches at SOME position
inside `s` — a prefix of some suffix of `s` is accepted.  Unanchored, in
contrast to `re.fullmatch`. -/
def reSearch (r : Regex) (s : List Char) : Bool :=
  s.tails.any fun t => t.inits.any fun p => rmatch r p

/-- `reSearch` is the unanchored substring search: it succeeds exactly
when some decomposition `s = u ++ v ++ w` has the middle part fully
matching the pattern. -/
theorem reSearch_iff (r : Regex) (s : List Char) :
    reSearch r s = true ↔ ∃ u v w, s = u ++ v ++ w ∧ rmatch r v = true := by
  simp only [reSearch, List.any_eq_true, List.mem_tails, List.mem_inits]
  constructor
  · rintro ⟨t, ⟨u, hu⟩, p, ⟨w, hw⟩, hm⟩
    exact ⟨u, p, w, by rw [← hu, ← hw, List.append_assoc], hm⟩
  · rintro ⟨u, v, w, hs, hm⟩
    exact ⟨v ++ w, ⟨u, by rw [hs, List.append_assoc]⟩, v, ⟨w, rfl⟩, hm⟩

/-- The iteration driver `list_artifacs` (artifacts.py lines 14-49): for
each package in order, if `re.search(pattern, package)` succeeds, fetch
the package's filtered artifact list (`artifactsOf`, standing for
`data_sourcer.list_artifacts` at the fixed query arguments) and print each
line; advance the progress counter by 1 for every package regardless.
The returned pair is the sequence of printed lines and the total progress
advanced. -/
def list_artifacs (pattern : Regex) (artifactsOf : List Char → List (List Char)) :
    List (List Char) → List (List Char) × Nat
  | [] => ([], 0)
  | p :: ps =>
    let rest := list_artifacs pattern artifactsOf ps
    (if reSearch pattern p then artifactsOf p ++ rest.1 else rest.1, rest.2 + 1)

/-- The driver's output is the concatenated artifact lists of exactly the
packages the pattern search selects, and the progress advances once per
package. -/
theorem list_artifacs_eq (pattern : Regex) (artifactsOf : List Char → List (List Char))
    (packages : List (List Char)) :
    list_artifacs pattern artifactsOf packages
      = (((packages.filter fun p => reSearch pattern p).map artifactsOf).flatten,
          packages.length) := by
  induction packages with
  | nil => rfl
  | cons p ps ih =>
    simp only [list_artifacs, ih, List.filter_cons, List.length_cons]
    by_cases h : reSearch pattern p = true
    · rw [if_pos h, if_pos h]
      simp
    · rw [if_neg h, if_neg h]

/-! ### Claims -/

/-- C1 (counterexample): the claim says a trimmed line hitting no invalid
prefix and no invalid extension is excluded only when it is exactly
`repo_name ++ "/"`, and that a line merely starting with `repo_name ++ "/"`
such as `"repo/foo.rpm"` is retained.  The code excludes `"repo/foo.rpm"`:
with no invalid prefixes or extensions configured, `list_artifacts` on the
single line `"repo/foo.rpm"` with repository `"repo"` returns `[]`. -/
theorem C1_counterexample :
    startswithAny "repo/foo.rpm".toList [] = false
    ∧ endswithAny "repo/foo.rpm".toList [] = false
    ∧ "repo/foo.rpm".toList ≠ "repo".toList ++ ['/']
    ∧ list_artifacts "repo/foo.rpm".toList "repo".toList [] [] = [] := by
  decide

/-- C1 (amended): for a line of the input hitting no invalid prefix and no
invalid extension, the filter retains its trimmed form iff that form does
not START with `repo_name ++ "/"` (prefix test, not equality); a line that
merely starts with `repo_name` without the following slash is retained. -/
theorem C1_repo_marker_retention (repo_name : List Char)
    (invalid_start invalid_extensions : List (List Char)) (lines : List (List Char))
    (l : List Char) (hl : l ∈ lines)
    (h1 : startswithAny (pyStrip l) invalid_start = false)
    (h2 : endswithAny (pyStrip l) invalid_extensions = false) :
    pyStrip l ∈ filterArtifacts repo_name invalid_start invalid_extensions lines
      ↔ (repo_name ++ ['/']).isPrefixOf (pyStrip l) = false := by
  rw [filterArtifacts_eq_filter, List.mem_filter]
  constructor
  · intro h
    have hk := h.2
    simp only [artifactKeep, Bool.and_eq_true, Bool.not_eq_true'] at hk
    exact hk.1.2
  · intro h
    refine ⟨List.mem_map_of_mem pyStrip hl, ?_⟩
    simp [artifactKeep, h1, h2, h]

/-- C1 (witness): the amended theorem at a concrete input: with repository
`"repo"`, the line `"repoX.rpm"` (which starts with `repo_name` but not
with `repo_name ++ "/"`) is retained. -/
theorem C1_witness :
    "repoX.rpm".toList ∈ filterArtifacts "repo".toList ["badinfo".toList] [".log".toList]
      ["repoX.rpm".toList] := by
  have h := C1_repo_marker_retention "repo".toList ["badinfo".toList] [".log".toList]
    ["repoX.rpm".toList] "repoX.rpm".toList (by decide) (by decide) (by decide)
  have hs : pyStrip "repoX.rpm".toList = "repoX.rpm".toList := by decide
  rw [hs] at h
  exact h.mpr (by decide)

/-- C2 (counterexample): the claim says selecting more than one search
mode fails with the invalid-query error; the code raises no error when
both `is_login` and `is_email` are set — the `if/elif` chain silently
performs the login search. -/
theorem C2_counterexample :
    get_users_query "alice".toList true true false
        = Except.ok (UserQuery.login "alice".toList)
    ∧ ∀ e, get_users_query "alice".toList true true false ≠ Except.error e :=
  ⟨rfl, fun _ h => Except.noConfusion h⟩

/-- C2 (amended): `get_users` fails with the invalid-search error exactly
when ZERO of the three modes are selected; whenever at least one mode is
set a search is performed (the first set flag in the order login, email,
realname decides which). -/
theorem C2_invalid_search_iff_no_mode (t : List Char) (is_login is_email is_realname : Bool) :
    (∃ err, get_users_query t is_login is_email is_realname = Except.error err)
      ↔ (is_login = false ∧ is_email = false ∧ is_realname = false) := by
  cases is_login <;> cases is_email <;> cases is_realname <;>
    simp [get_users_query]

/-- C2 (witness): the amended theorem at a concrete input: with no mode
selected the lookup fails. -/
theorem C2_witness :
    ∃ err, get_users_query "al".toList false false false = Except.error err :=
  (C2_invalid_search_iff_no_mode "al".toList false false false).mpr ⟨rfl, rfl, rfl⟩

/-- C3 (counterexample): the claim says the line parser of
`list_packages` drops every empty line, so no element of the result is the
empty string; on stdout `"a\n\nb"` the code returns `["a", "", "b"]`,
which contains the empty string. -/
theorem C3_counterexample :
    list_packages "a\n\nb".toList = ["a".toList, [], "b".toList]
    ∧ ([] : List Char) ∈ list_packages "a\n\nb".toList := by
  decide

/-- C3 (amended): `list_packages` strips the whole stdout, splits it on
newlines and strips each line, preserving order; every element of the
result is whitespace-trimmed, but interior blank lines are retained as
empty strings (empty lines are NOT dropped). -/
theorem C3_line_parser_trims (stdout : List Char) :
    list_packages stdout = (splitlines (pyStrip stdout)).map pyStrip
    ∧ ∀ s ∈ list_packages stdout, pyStrip s = s := by
  have heq : list_packages stdout = (splitlines (pyStrip stdout)).map pyStrip := by
    unfold list_packages
    by_cases h : stdout.isEmpty
    · rw [if_pos h]
      rw [List.isEmpty_iff] at h
      subst h
      rfl
    · rw [if_neg h]
  refine ⟨heq, ?_⟩
  intro s hs
  rw [heq] at hs
  obtain ⟨x, _, hx⟩ := List.mem_map.mp hs
  rw [← hx]
  exact pyStrip_idem x

/-- C3 (witness): the amended theorem at a concrete input: `"a"` is an
element of `list_packages "  a \n b"` and is trimmed. -/
theorem C3_witness :
    list_packages "  a \n b".toList = ["a".toList, "b".toList]
    ∧ pyStrip "a".toList = "a".toList :=
  ⟨by decide, (C3_line_parser_trims "  a \n b".toList).2 "a".toList (by decide)⟩

/-- C4 (confirmed): a line whose trimmed form starts with any configured
invalid prefix, or ends with any configured invalid extension, never
appears in the filter output, regardless of its other properties. -/
theorem C4_bad_affix_excluded (repo_name : List Char)
    (invalid_start invalid_extensions : List (List Char)) (lines : List (List Char))
    (s : List Char)
    (h : startswithAny s invalid_start = true ∨ endswithAny s invalid_extensions = true) :
    s ∉ filterArtifacts repo_name invalid_start invalid_extensions lines := by
  rw [filterArtifacts_eq_filter]
  intro hmem
  have hk := (List.mem_filter.mp hmem).2
  simp only [artifactKeep, Bool.and_eq_true, Bool.not_eq_true'] at hk
  rcases h with h | h
  · rw [hk.1.1] at h
    exact Bool.false_ne_true h
  · rw [hk.2] at h
    exact Bool.false_ne_true h

/-- C4 (witness): the theorem at a concrete input: `"badinfo.log"` starts
with the invalid prefix `"badinfo"` and is excluded. -/
theorem C4_witness :
    "badinfo.log".toList ∉
      filterArtifacts "repo".toList ["badinfo".toList] [".src.rpm".toList]
        ["badinfo.log".toList, "app-1.0.rpm".toList] :=
  C4_bad_affix_excluded "repo".toList ["badinfo".toList] [".src.rpm".toList]
    ["badinfo.log".toList, "app-1.0.rpm".toList] "badinfo.log".toList
    (Or.inl (by decide))

/-- C5 (confirmed): the filter output is a subsequence of the trimmed
input lines — a single-pass, order-preserving selection, so any two
retained lines keep their relative input order. -/
theorem C5_output_sublist (repo_name : List Char)
    (invalid_start invalid_extensions : List (List Char)) (lines : List (List Char)) :
    List.Sublist (filterArtifacts repo_name invalid_start invalid_extensions lines)
      (lines.map pyStrip) := by
  rw [filterArtifacts_eq_filter]
  exact List.filter_sublist (lines.map pyStrip)

/-- C5 (witness): the theorem at a concrete input. -/
theorem C5_witness :
    List.Sublist
      (filterArtifacts "repo".toList ["badinfo".toList] [".src.rpm".toList]
        ["badinfo.log".toList, "repo/".toList, "app-1.0.rpm".toList, "tmp.src.rpm".toList])
      (["badinfo.log".toList, "repo/".toList, "app-1.0.rpm".toList,
        "tmp.src.rpm".toList].map pyStrip) :=
  C5_output_sublist "repo".toList ["badinfo".toList] [".src.rpm".toList]
    ["badinfo.log".toList, "repo/".toList, "app-1.0.rpm".toList, "tmp.src.rpm".toList]

/-- C6 (counterexample): the claim says an input in which no line starts
with an invalid prefix, none EQUALS `repo_name ++ "/"` and none ends with
an invalid extension passes through unchanged; the single line
`"repo/foo.rpm"` satisfies all three conditions (with no prefixes or
extensions configured) yet the output is `[]`, not the input. -/
theorem C6_counterexample :
    startswithAny "repo/foo.rpm".toList [] = false
    ∧ "repo/foo.rpm".toList ≠ "repo".toList ++ ['/']
    ∧ endswithAny "repo/foo.rpm".toList [] = false
    ∧ filterArtifacts "repo".toList [] [] ["repo/foo.rpm".toList] = []
    ∧ ["repo/foo.rpm".toList] ≠ ([] : List (List Char)) := by
  decide

/-- C6 (amended): the filter on empty input yields empty output; and an
input of already-trimmed lines in which no line starts with an invalid
prefix, none STARTS with `repo_name ++ "/"` and none ends with an invalid
extension passes through unchanged. -/
theorem C6_empty_and_identity (repo_name : List Char)
    (invalid_start invalid_extensions : List (List Char)) :
    filterArtifacts repo_name invalid_start invalid_extensions [] = []
    ∧ ∀ lines : List (List Char),
        (∀ l ∈ lines, pyStrip l = l
          ∧ startswithAny l invalid_start = false
          ∧ (repo_name ++ ['/']).isPrefixOf l = false
          ∧ endswithAny l invalid_extensions = false) →
        filterArtifacts repo_name invalid_start invalid_extensions lines = lines := by
  refine ⟨rfl, ?_⟩
  intro lines h
  rw [filterArtifacts_eq_filter]
  have hmap : lines.map pyStrip = lines := by
    induction lines with
    | nil => rfl
    | cons l ls ih =>
      rw [List.map_cons, (h l (List.mem_cons_self l ls)).1,
        ih fun x hx => h x (List.mem_cons_of_mem l hx)]
  rw [hmap]
  rw [List.filter_eq_self]
  intro a ha
  obtain ⟨-, h1, h2, h3⟩ := h a ha
  simp [artifactKeep, h1, h2, h3]

/-- C6 (witness): the amended theorem at a concrete input: an all-valid
two-line input passes through unchanged. -/
theorem C6_witness :
    filterArtifacts "repo".toList ["badinfo".toList] [".src.rpm".toList]
      ["app-1.0.rpm".toList, "doc-2.noarch.rpm".toList]
      = ["app-1.0.rpm".toList, "doc-2.noarch.rpm".toList] :=
  (C6_empty_and_identity "repo".toList ["badinfo".toList] [".src.rpm".toList]).2
    ["app-1.0.rpm".toList, "doc-2.noarch.rpm".toList] (by decide)

/-- C7 (confirmed): when the external command exits non-zero, both
`get_groups` and `get_users` (with a search mode selected) fail with an
error whose message carries the captured stderr text (stripped, as the
source does with `e.stderr.strip()`); the error is returned to the caller,
never retried and never swallowed. -/
theorem C7_command_failure_propagates (group search_text : List Char)
    (cmd cmd2 : List (List Char)) (res : CommandResult)
    (parseG : List Char → GroupTree) (is_fulllist : Bool)
    (parseU : List Char → List UserRecord)
    (h : res.exit_code ≠ 0) :
    (∃ msg, osc_get_groups_run group cmd res parseG is_fulllist
        = Except.error (PyError.runtimeError msg) ∧ pyStrip res.stderr <:+ msg)
    ∧ (∃ msg, osc_get_users_run search_text true false false cmd2 res parseU
        = Except.error (PyError.runtimeError msg) ∧ pyStrip res.stderr <:+ msg) := by
  constructor
  · refine ⟨"Failed to get group '".toList ++ group ++ "': ".toList ++ pyStrip res.stderr,
      ?_, ?_⟩
    · simp [osc_get_groups_run, run_command, h]
    · exact ⟨_, rfl⟩
  · refine ⟨"Failed to get user '".toList ++ search_text ++ "': ".toList ++ pyStrip res.stderr,
      ?_, ?_⟩
    · simp [osc_get_users_run, get_users_query, run_command, h]
    · exact ⟨_, rfl⟩

/-- C7 (witness): the theorem at a concrete input: exit code 1 with
stderr `" boom "` makes both lookups fail with a message carrying
`"boom"`. -/
theorem C7_witness :
    (∃ msg, osc_get_groups_run "grp".toList [] ⟨1, [], " boom ".toList⟩
        (fun _ => ⟨none, none, [], []⟩) false
        = Except.error (PyError.runtimeError msg)
        ∧ pyStrip " boom ".toList <:+ msg)
    ∧ (∃ msg, osc_get_users_run "alice".toList true false false [] ⟨1, [], " boom ".toList⟩
        (fun _ => [])
        = Except.error (PyError.runtimeError msg)
        ∧ pyStrip " boom ".toList <:+ msg) :=
  C7_command_failure_propagates "grp".toList "alice".toList [] [] ⟨1, [], " boom ".toList⟩
    (fun _ => ⟨none, none, [], []⟩) false (fun _ => []) (by decide)

/-- C8 (confirmed): the iteration driver emits exactly the concatenated
filtered artifact lists of the packages whose name the pattern matches
somewhere (unanchored substring search, not full match), in order, and
advances the progress counter once per package, matching or not. -/
theorem C8_driver_selection (pattern : Regex) (artifactsOf : List Char → List (List Char))
    (packages : List (List Char)) :
    list_artifacs pattern artifactsOf packages
      = (((packages.filter fun p => reSearch pattern p).map artifactsOf).flatten,
          packages.length)
    ∧ ∀ p : List Char,
        reSearch pattern p = true ↔ ∃ u v w, p = u ++ v ++ w ∧ rmatch pattern v = true :=
  ⟨list_artifacs_eq pattern artifactsOf packages, fun p => reSearch_iff pattern p⟩

/-- C8 (witness): the theorem at a concrete input: the pattern `a` only
selects the package containing an `a`, and progress advances twice. -/
theorem C8_witness :
    list_artifacs (Regex.char 'a') (fun _ => [['x']]) ["ab".toList, "zz".toList]
      = ([['x']], 2) := by
  rw [(C8_driver_selection (Regex.char 'a') (fun _ => [['x']])
    ["ab".toList, "zz".toList]).1]
  decide

/-- C9 (confirmed): the info dictionary built by `get_groups` always
holds the keys `Group`, `Email` and `Maintainers` (with `None` or empty
values when the elements are absent), so it is never empty; hence the
`if not info` check of the `users.get_groups` wrapper never fires and the
wrapper returns the dictionary for every well-formed response. -/
theorem C9_group_info_never_empty (tree : GroupTree) (is_fulllist : Bool)
    (group : List Char) :
    "Group".toList ∈ (osc_get_groups tree is_fulllist).map Prod.fst
    ∧ "Email".toList ∈ (osc_get_groups tree is_fulllist).map Prod.fst
    ∧ "Maintainers".toList ∈ (osc_get_groups tree is_fulllist).map Prod.fst
    ∧ osc_get_groups tree is_fulllist ≠ []
    ∧ users_get_groups group tree is_fulllist
        = Except.ok (osc_get_groups tree is_fulllist) := by
  have hne : osc_get_groups tree is_fulllist ≠ [] := by
    unfold osc_get_groups
    cases is_fulllist <;> simp
  refine ⟨?_, ?_, ?_, hne, ?_⟩
  · unfold osc_get_groups
    cases is_fulllist <;> simp
  · unfold osc_get_groups
    cases is_fulllist <;> simp
  · unfold osc_get_groups
    cases is_fulllist <;> simp
  · unfold users_get_groups
    rw [if_neg (by simpa [List.isEmpty_iff] using hne)]

/-- C9 (witness): the theorem at a concrete input: even an entirely empty
group document yields a non-empty dictionary and no error. -/
theorem C9_witness :
    users_get_groups "g".toList ⟨none, none, [], []⟩ false
      = Except.ok (osc_get_groups ⟨none, none, [], []⟩ false) :=
  (C9_group_info_never_empty ⟨none, none, [], []⟩ false "g".toList).2.2.2.2

/-- C10 (confirmed): the mode flags of `get_users` are evaluated with
fixed precedence login, email, realname: a set higher-precedence flag
silently decides the query whatever the others are, and the
`"Invalid user search."` error is raised exactly when all three flags are
false. -/
theorem C10_mode_precedence (t : List Char) (is_login is_email is_realname : Bool) :
    (is_login = true →
      get_users_query t is_login is_email is_realname = Except.ok (UserQuery.login t))
    ∧ (is_login = false → is_email = true →
      get_users_query t is_login is_email is_realname = Except.ok (UserQuery.email t))
    ∧ (is_login = false → is_email = false → is_realname = true →
      get_users_query t is_login is_email is_realname = Except.ok (UserQuery.realname t))
    ∧ (is_login = false → is_email = false → is_realname = false →
      get_users_query t is_login is_email is_realname
        = Except.error (PyError.runtimeError "Invalid user search.".toList))
    ∧ (∀ err, get_users_query t is_login is_email is_realname = Except.error err →
        is_login = false ∧ is_email = false ∧ is_realname = false) := by
  cases is_login <;> cases is_email <;> cases is_realname <;>
    simp [get_users_query]

/-- C10 (witness): the theorem at concrete inputs: with login and email
both set the login query wins silently; with no flag set the invalid
search error is raised. -/
theorem C10_witness :
    get_users_query "al".toList true true false = Except.ok (UserQuery.login "al".toList)
    ∧ get_users_query "al".toList false false false
        = Except.error (PyError.runtimeError "Invalid user search.".toList) :=
  ⟨(C10_mode_precedence "al".toList true true false).1 rfl,
    (C10_mode_precedence "al".toList false false false).2.2.2.1 rfl rfl rfl⟩

end Relx
